import Mathlib

/-!
Verification of the olx-br client library (src/src/index.ts and
src/services/api.ts) against its specification.

The library is a thin request-shaping layer: every public method builds a
request path/body from its arguments and credentials, issues exactly one
HTTP call, and normalizes the response or error.  We embed it shallowly:

* `JsValue` models JavaScript values (for bodies and error payloads), with
  `jsTruthy` modelling JavaScript truthiness (used by `||` and `if`).
* Each method is split into a pure request builder (`..._params`,
  `..._request`) translated line by line from the source, and an outcome
  handler (`..._run`) mapping the transport outcome
  (`Except AxiosError AxiosResponse`) to the promise outcome
  (`Except RejectValue JsValue`), mirroring the `.then`/`.catch` pair of
  each call site, including the repeated `err.response?.data || err`.
* `Olx.getAuthUrl` is pure string construction, translated from the
  `let`/`if` sequence of the source.
-/

/-- A model of JavaScript runtime values: the payloads that flow through
request bodies, response bodies and error objects. -/
inductive JsValue where
  | undefined : JsValue
  | null : JsValue
  | bool : Bool → JsValue
  | num : Int → JsValue
  | str : String → JsValue
  | arr : List JsValue → JsValue
  | obj : List (String × JsValue) → JsValue

/-- JavaScript truthiness of a value, as used by `||` and `if`. -/
def jsTruthy : JsValue → Bool
  | .undefined => false
  | .null => false
  | .bool b => b
  | .num n => n != 0
  | .str s => s != ""
  | .arr _ => true
  | .obj _ => true

/-- JavaScript property access `v.k`: the field's value on an object that
has it, `undefined` otherwise. -/
def JsValue.getField (v : JsValue) (k : String) : JsValue :=
  match v with
  | .obj fields =>
    match fields.lookup k with
    | some x => x
    | none => .undefined
  | _ => .undefined

/-- HTTP verb of a request issued through axios. -/
inductive HttpVerb where
  | get : HttpVerb
  | post : HttpVerb
  | put : HttpVerb
deriving DecidableEq

/-- Which preconfigured axios instance a request goes through:
`authApi` (base `https://auth.olx.com.br/`, form-urlencoded) or
`appApi` (base `https://apps.olx.com.br/`, JSON). -/
inductive ApiHost where
  | auth : ApiHost
  | app : ApiHost
deriving DecidableEq

/-- A request body: URL-encoded form parameters (a `URLSearchParams`,
an ordered list of key/value pairs) or a JSON value. -/
inductive ReqBody where
  | form : List (String × String) → ReqBody
  | json : JsValue → ReqBody

/-- The single outbound HTTP request a method issues. -/
structure Request where
  verb : HttpVerb
  host : ApiHost
  path : String
  body : ReqBody

/-- The transport-level response envelope (`result` in the source);
only its `data` field is ever read. -/
structure AxiosResponse where
  data : JsValue

/-- The transport-level error (`err` in the source): it optionally carries
the remote response (absent on network/DNS/timeout failures). -/
structure AxiosError where
  response : Option AxiosResponse

/-- What a method rejects with: either a remote response body, or the raw
transport error object itself, unchanged. -/
inductive RejectValue where
  | body : JsValue → RejectValue
  | raw : AxiosError → RejectValue

/-- `GET_TOKEN_URL` from src/services/api.ts. -/
def GET_TOKEN_URL : String := "https://auth.olx.com.br/"

/-- `API_URL` from src/services/api.ts. -/
def API_URL : String := "https://apps.olx.com.br/"

/-- The client class: the three credential fields stored by the
constructor. -/
structure Olx where
  client_id : String
  client_secret : String
  redirect_uri : String
deriving DecidableEq

/-- Truthiness of an optional string argument (`if (state)`):
absent and the empty string are falsy. -/
def strOptTruthy : Option String → Bool
  | none => false
  | some s => s != ""

/-- Truthiness of an optional numeric argument (`if (id_marca)`):
absent and zero are falsy. -/
def numOptTruthy : Option Nat → Bool
  | none => false
  | some n => n != 0

/-- `Olx.getAuthUrl`, translated from the source:
scope starts as `basic_user_info`, gains `%20autoupload` when
`autoupload` is truthy; the query string interpolates the stored
credentials unescaped; a truthy `state` is appended last; the result is
`authApi.defaults.baseURL + '/oauth?' + query`. -/
def Olx.getAuthUrl (o : Olx) (autoupload : Bool) (state : Option String) : String :=
  let scope := "basic_user_info"
  let scope := if autoupload then scope ++ "%20autoupload" else scope
  let query := "response_type=code&client_id=" ++ o.client_id ++
    "&redirect_uri=" ++ o.redirect_uri ++ "&scope=" ++ scope
  let query := if strOptTruthy state then query ++ "&state=" ++ state.getD "" else query
  GET_TOKEN_URL ++ "/oauth?" ++ query

/-- The `URLSearchParams` built by `Olx.getToken`, one `append` per line
of the source. -/
def Olx.getToken_params (o : Olx) (code : String) : List (String × String) :=
  let params : List (String × String) := []
  let params := params ++ [("code", code)]
  let params := params ++ [("client_id", o.client_id)]
  let params := params ++ [("client_secret", o.client_secret)]
  let params := params ++ [("redirect_uri", o.redirect_uri)]
  let params := params ++ [("grant_type", "authorization_code")]
  params

/-- The request issued by `Olx.getToken`:
`authApi.post("/oauth/token", params)`. -/
def Olx.getToken_request (o : Olx) (code : String) : Request :=
  { verb := .post, host := .auth, path := "/oauth/token",
    body := .form (o.getToken_params code) }

/-- The promise executor of `Olx.getToken`: on success
`resolve(result.data.access_token)`, on failure
`reject(err.response?.data || err)`. -/
def Olx.getToken_run : Except AxiosError AxiosResponse → Except RejectValue JsValue
  | .ok result => .ok (result.data.getField "access_token")
  | .error err =>
    .error (match err.response with
      | some r => if jsTruthy r.data then .body r.data else .raw err
      | none => .raw err)

/-- The request issued by `Olx.getAnuncios` (static):
`appApi.post("/autoupload/published", { access_token })`. -/
def Olx.getAnuncios_request (access_token : String) : Request :=
  { verb := .post, host := .app, path := "/autoupload/published",
    body := .json (.obj [("access_token", .str access_token)]) }

/-- The promise executor of `Olx.getAnuncios`: `resolve(result.data)` /
`reject(err.response?.data || err)`. -/
def Olx.getAnuncios_run : Except AxiosError AxiosResponse → Except RejectValue JsValue
  | .ok result => .ok result.data
  | .error err =>
    .error (match err.response with
      | some r => if jsTruthy r.data then .body r.data else .raw err
      | none => .raw err)

/-- The request issued by `Olx.getBasicUserInfo` (static):
`appApi.post("/oauth_api/basic_user_info", { access_token })`. -/
def Olx.getBasicUserInfo_request (access_token : String) : Request :=
  { verb := .post, host := .app, path := "/oauth_api/basic_user_info",
    body := .json (.obj [("access_token", .str access_token)]) }

/-- The promise executor of `Olx.getBasicUserInfo`. -/
def Olx.getBasicUserInfo_run : Except AxiosError AxiosResponse → Except RejectValue JsValue
  | .ok result => .ok result.data
  | .error err =>
    .error (match err.response with
      | some r => if jsTruthy r.data then .body r.data else .raw err
      | none => .raw err)

/-- The request issued by `Olx.putAnuncios` (static):
`appApi.put("/autoupload/import", { access_token, ad_list: anuncios })`. -/
def Olx.putAnuncios_request (access_token : String) (anuncios : List JsValue) : Request :=
  { verb := .put, host := .app, path := "/autoupload/import",
    body := .json (.obj [("access_token", .str access_token), ("ad_list", .arr anuncios)]) }

/-- The promise executor of `Olx.putAnuncios`. -/
def Olx.putAnuncios_run : Except AxiosError AxiosResponse → Except RejectValue JsValue
  | .ok result => .ok result.data
  | .error err =>
    .error (match err.response with
      | some r => if jsTruthy r.data then .body r.data else .raw err
      | none => .raw err)

/-- The `anuncios` array built by `Olx.deleteAnuncios`:
`id_anuncios.forEach(id => anuncios.push({ id, operation: "delete" }))`,
i.e. a left fold that pushes one record per id. -/
def Olx.deleteAnuncios_adList (id_anuncios : List String) : List JsValue :=
  id_anuncios.foldl
    (fun anuncios id => anuncios ++ [JsValue.obj [("id", .str id), ("operation", .str "delete")]])
    []

/-- The request issued by `Olx.deleteAnuncios` (static):
`appApi.put("/autoupload/import", { access_token, ad_list: anuncios })`. -/
def Olx.deleteAnuncios_request (access_token : String) (id_anuncios : List String) : Request :=
  { verb := .put, host := .app, path := "/autoupload/import",
    body := .json (.obj [("access_token", .str access_token),
      ("ad_list", .arr (Olx.deleteAnuncios_adList id_anuncios))]) }

/-- The promise executor of `Olx.deleteAnuncios`. -/
def Olx.deleteAnuncios_run : Except AxiosError AxiosResponse → Except RejectValue JsValue
  | .ok result => .ok result.data
  | .error err =>
    .error (match err.response with
      | some r => if jsTruthy r.data then .body r.data else .raw err
      | none => .raw err)

/-- The request issued by `Olx.getStatusAnuncio` (static):
`appApi.post(`/autoupload/import/${token_anuncio}`, { access_token })`. -/
def Olx.getStatusAnuncio_request (access_token : String) (token_anuncio : String) : Request :=
  { verb := .post, host := .app, path := "/autoupload/import/" ++ token_anuncio,
    body := .json (.obj [("access_token", .str access_token)]) }

/-- The promise executor of `Olx.getStatusAnuncio`. -/
def Olx.getStatusAnuncio_run : Except AxiosError AxiosResponse → Except RejectValue JsValue
  | .ok result => .ok result.data
  | .error err =>
    .error (match err.response with
      | some r => if jsTruthy r.data then .body r.data else .raw err
      | none => .raw err)

/-- The path built by `Olx.getModelosCarros` / `Olx.getModelosMotos`:
`var uri = base; if (id_marca) { uri += "/" + id_marca;
if (id_modelo) uri += "/" + id_modelo; }`. -/
def vehicleInfoUri (base : String) (id_marca id_modelo : Option Nat) : String :=
  if numOptTruthy id_marca then
    let uri := base ++ "/" ++ toString (id_marca.getD 0)
    if numOptTruthy id_modelo then uri ++ "/" ++ toString (id_modelo.getD 0) else uri
  else base

/-- The request issued by `Olx.getModelosCarros` (static):
`appApi.post(uri, { access_token })` with `uri` grown from
`/autoupload/car_info`. -/
def Olx.getModelosCarros_request (access_token : String) (id_marca id_modelo : Option Nat) : Request :=
  { verb := .post, host := .app, path := vehicleInfoUri "/autoupload/car_info" id_marca id_modelo,
    body := .json (.obj [("access_token", .str access_token)]) }

/-- The promise executor of `Olx.getModelosCarros`. -/
def Olx.getModelosCarros_run : Except AxiosError AxiosResponse → Except RejectValue JsValue
  | .ok result => .ok result.data
  | .error err =>
    .error (match err.response with
      | some r => if jsTruthy r.data then .body r.data else .raw err
      | none => .raw err)

/-- The request issued by `Olx.getModelosMotos` (static):
`appApi.post(uri, { access_token })` with `uri` grown from
`/autoupload/moto_info`. -/
def Olx.getModelosMotos_request (access_token : String) (id_marca id_modelo : Option Nat) : Request :=
  { verb := .post, host := .app, path := vehicleInfoUri "/autoupload/moto_info" id_marca id_modelo,
    body := .json (.obj [("access_token", .str access_token)]) }

/-- The promise executor of `Olx.getModelosMotos`. -/
def Olx.getModelosMotos_run : Except AxiosError AxiosResponse → Except RejectValue JsValue
  | .ok result => .ok result.data
  | .error err =>
    .error (match err.response with
      | some r => if jsTruthy r.data then .body r.data else .raw err
      | none => .raw err)

/-- The request issued by `Olx.getCilindradas` (static):
`appApi.post('/autoupload/moto_cubiccms_info', { access_token })`. -/
def Olx.getCilindradas_request (access_token : String) : Request :=
  { verb := .post, host := .app, path := "/autoupload/moto_cubiccms_info",
    body := .json (.obj [("access_token", .str access_token)]) }

/-- The promise executor of `Olx.getCilindradas`. -/
def Olx.getCilindradas_run : Except AxiosError AxiosResponse → Except RejectValue JsValue
  | .ok result => .ok result.data
  | .error err =>
    .error (match err.response with
      | some r => if jsTruthy r.data then .body r.data else .raw err
      | none => .raw err)

/-- `needle` occurs as a contiguous substring of `hay`. -/
def strContains (hay needle : String) : Prop :=
  needle.data <:+: hay.data

instance (hay needle : String) : Decidable (strContains hay needle) :=
  inferInstanceAs (Decidable (needle.data <:+: hay.data))

theorem strContains_of_parts (hay pre mid post needle : String)
    (h : hay = pre ++ mid ++ post) (hn : needle.data <:+: mid.data) :
    strContains hay needle := by
  subst h
  show needle.data <:+: (pre ++ mid ++ post).data
  rw [String.data_append, String.data_append]
  exact hn.trans (List.infix_append _ _ _)

theorem infix_sandwich {α : Type} (a2 a b2 b x : List α)
    (hA : a2 <:+ a) (hB : b2 <+: b) : a2 ++ x ++ b2 <:+: a ++ x ++ b := by
  obtain ⟨a0, rfl⟩ := hA
  obtain ⟨b0, rfl⟩ := hB
  exact ⟨a0, b0, by simp⟩

theorem getAuthUrl_decomp (o : Olx) (a : Bool) (st : Option String) :
    o.getAuthUrl a st =
      GET_TOKEN_URL ++ "/oauth?" ++ "response_type=code&client_id=" ++ o.client_id ++
      "&redirect_uri=" ++ o.redirect_uri ++ "&scope=" ++
      ("basic_user_info" ++ (if a then "%20autoupload" else "")) ++
      (if strOptTruthy st then "&state=" ++ (st.getD "") else "") := by
  rcases st with _ | s <;> cases a <;>
    simp [Olx.getAuthUrl, strOptTruthy, String.append_assoc] <;>
    first
      | rfl
      | (split <;> rfl)

/-- Claim C5: for every autoupload flag and any stored credentials, the URL
returned by `getAuthUrl` carries the query parameter `scope=basic_user_info`,
with `%20autoupload` appended to the scope value exactly when `autoupload` is
true (the first conjunct exhibits the whole URL, so the scope value is
`basic_user_info` followed by `%20autoupload` iff the flag is set), and it
carries `response_type=code`, the stored `client_id` and the stored
`redirect_uri` as query parameters. -/
theorem getAuthUrl_query_params (o : Olx) (a : Bool) (st : Option String) :
    o.getAuthUrl a st =
      GET_TOKEN_URL ++ "/oauth?" ++ "response_type=code&client_id=" ++ o.client_id ++
        "&redirect_uri=" ++ o.redirect_uri ++ "&scope=" ++
        ("basic_user_info" ++ (if a then "%20autoupload" else "")) ++
        (if strOptTruthy st then "&state=" ++ (st.getD "") else "")
    ∧ strContains (o.getAuthUrl a st) "scope=basic_user_info"
    ∧ strContains (o.getAuthUrl a st)
        ("scope=" ++ ("basic_user_info" ++ (if a then "%20autoupload" else "")))
    ∧ strContains (o.getAuthUrl a st) "response_type=code"
    ∧ strContains (o.getAuthUrl a st) ("client_id=" ++ o.client_id ++ "&")
    ∧ strContains (o.getAuthUrl a st) ("redirect_uri=" ++ o.redirect_uri ++ "&") := by
  refine ⟨getAuthUrl_decomp o a st, ?_, ?_, ?_, ?_, ?_⟩
  · exact strContains_of_parts _
      (GET_TOKEN_URL ++ "/oauth?" ++ "response_type=code&client_id=" ++ o.client_id ++
        "&redirect_uri=" ++ o.redirect_uri ++ "&")
      "scope=basic_user_info"
      ((if a then "%20autoupload" else "") ++
        (if strOptTruthy st then "&state=" ++ (st.getD "") else ""))
      _
      (by rw [getAuthUrl_decomp]; simp [String.append_assoc]; try rfl)
      (List.infix_refl _)
  · exact strContains_of_parts _
      (GET_TOKEN_URL ++ "/oauth?" ++ "response_type=code&client_id=" ++ o.client_id ++
        "&redirect_uri=" ++ o.redirect_uri ++ "&")
      ("scope=" ++ ("basic_user_info" ++ (if a then "%20autoupload" else "")))
      (if strOptTruthy st then "&state=" ++ (st.getD "") else "")
      _
      (by rw [getAuthUrl_decomp]; simp [String.append_assoc]; try rfl)
      (List.infix_refl _)
  · exact strContains_of_parts _
      (GET_TOKEN_URL ++ "/oauth?")
      "response_type=code"
      ("&client_id=" ++ o.client_id ++ "&redirect_uri=" ++ o.redirect_uri ++ "&scope=" ++
        ("basic_user_info" ++ (if a then "%20autoupload" else "")) ++
        (if strOptTruthy st then "&state=" ++ (st.getD "") else ""))
      _
      (by rw [getAuthUrl_decomp]; simp [String.append_assoc]; try rfl)
      (List.infix_refl _)
  · exact strContains_of_parts _
      (GET_TOKEN_URL ++ "/oauth?" ++ "response_type=code&")
      ("client_id=" ++ o.client_id ++ "&")
      ("redirect_uri=" ++ o.redirect_uri ++ "&scope=" ++
        ("basic_user_info" ++ (if a then "%20autoupload" else "")) ++
        (if strOptTruthy st then "&state=" ++ (st.getD "") else ""))
      _
      (by rw [getAuthUrl_decomp]; simp [String.append_assoc]; try rfl)
      (List.infix_refl _)
  · exact strContains_of_parts _
      (GET_TOKEN_URL ++ "/oauth?" ++ "response_type=code&client_id=" ++ o.client_id ++ "&")
      ("redirect_uri=" ++ o.redirect_uri ++ "&")
      ("scope=" ++ ("basic_user_info" ++ (if a then "%20autoupload" else "")) ++
        (if strOptTruthy st then "&state=" ++ (st.getD "") else ""))
      _
      (by rw [getAuthUrl_decomp]; simp [String.append_assoc]; try rfl)
      (List.infix_refl _)

/-- Claim C6 (amended): for every nonempty state string, the produced URL is
the no-state URL with `&state=<state>` appended verbatim at the end, after the
scope parameter; a state that is absent, or that is the empty string (falsy in
the `if (state)` test), appends no state parameter. -/
theorem getAuthUrl_state_appended (o : Olx) (a : Bool) :
    (∀ s : String, s ≠ "" →
      o.getAuthUrl a (some s) = o.getAuthUrl a none ++ "&state=" ++ s ∧
      strContains (o.getAuthUrl a (some s)) ("&state=" ++ s)) ∧
    o.getAuthUrl a (some "") = o.getAuthUrl a none := by
  have key : ∀ s : String, s ≠ "" →
      o.getAuthUrl a (some s) = o.getAuthUrl a none ++ "&state=" ++ s := by
    intro s hs
    rw [getAuthUrl_decomp o a (some s), getAuthUrl_decomp o a none]
    simp [strOptTruthy, hs, String.append_assoc]
  refine ⟨fun s hs => ⟨key s hs, ?_⟩, rfl⟩
  rw [key s hs]
  exact strContains_of_parts _ (o.getAuthUrl a none) ("&state=" ++ s) "" _
    (by simp [String.append_assoc]) (List.infix_refl _)

set_option maxRecDepth 40000 in
/-- Claim C6 counterexample: the empty string is a state value that the claim
covers, yet `getAuthUrl` drops it: the produced URL equals the no-state URL
and contains no `&state=` parameter at all. -/
theorem getAuthUrl_state_empty_dropped :
    Olx.getAuthUrl ⟨"myid", "mysecret", "myuri"⟩ true (some "") =
      Olx.getAuthUrl ⟨"myid", "mysecret", "myuri"⟩ true none ∧
    ¬ strContains (Olx.getAuthUrl ⟨"myid", "mysecret", "myuri"⟩ true (some "")) "&state=" :=
  ⟨rfl, by decide⟩

/-- The error-normalization rule, as a predicate on a method's outcome
handler: a failure carrying a remote response with a truthy body rejects
with that body; any other failure (no response, or a falsy body) rejects
with the raw transport error object unchanged. -/
def RejectsNormalized (run : Except AxiosError AxiosResponse → Except RejectValue JsValue) : Prop :=
  ∀ err : AxiosError,
    (∀ r : AxiosResponse, err.response = some r → jsTruthy r.data = true →
      run (.error err) = .error (.body r.data)) ∧
    (∀ r : AxiosResponse, err.response = some r → jsTruthy r.data = false →
      run (.error err) = .error (.raw err)) ∧
    (err.response = none → run (.error err) = .error (.raw err))

theorem run_error_cases
    (run : Except AxiosError AxiosResponse → Except RejectValue JsValue)
    (hrun : ∀ err : AxiosError, run (.error err) =
      .error (match err.response with
        | some r => if jsTruthy r.data then .body r.data else .raw err
        | none => .raw err)) :
    RejectsNormalized run := by
  intro err
  refine ⟨?_, ?_, ?_⟩
  · intro r hr ht
    rw [hrun, hr]
    simp [ht]
  · intro r hr ht
    rw [hrun, hr]
    simp [ht]
  · intro hn
    rw [hrun, hn]

/-- Claim C1: every public method normalizes a failed request the same way:
a transport error carrying a remote response with a (truthy) body rejects
with that body, and otherwise the method rejects with the raw
transport-level error unchanged; the rule holds at all nine call sites. -/
theorem error_normalization_every_call_site :
    RejectsNormalized Olx.getToken_run ∧ RejectsNormalized Olx.getAnuncios_run ∧
    RejectsNormalized Olx.getBasicUserInfo_run ∧ RejectsNormalized Olx.putAnuncios_run ∧
    RejectsNormalized Olx.deleteAnuncios_run ∧ RejectsNormalized Olx.getStatusAnuncio_run ∧
    RejectsNormalized Olx.getModelosCarros_run ∧ RejectsNormalized Olx.getModelosMotos_run ∧
    RejectsNormalized Olx.getCilindradas_run :=
  ⟨run_error_cases _ (fun _ => rfl), run_error_cases _ (fun _ => rfl),
   run_error_cases _ (fun _ => rfl), run_error_cases _ (fun _ => rfl),
   run_error_cases _ (fun _ => rfl), run_error_cases _ (fun _ => rfl),
   run_error_cases _ (fun _ => rfl), run_error_cases _ (fun _ => rfl),
   run_error_cases _ (fun _ => rfl)⟩

/-- Claim C1 witness: on a 4xx response carrying `{"error":"invalid_grant"}`,
`getToken` rejects with exactly that body; on a response-less network error,
`getAnuncios` rejects with the raw error object. -/
theorem error_normalization_every_call_site_witness :
    Olx.getToken_run (.error ⟨some ⟨JsValue.obj [("error", .str "invalid_grant")]⟩⟩) =
      .error (.body (JsValue.obj [("error", .str "invalid_grant")])) ∧
    Olx.getAnuncios_run (.error ⟨none⟩) = .error (.raw ⟨none⟩) :=
  ⟨(error_normalization_every_call_site.1 ⟨some ⟨JsValue.obj [("error", .str "invalid_grant")]⟩⟩).1
      ⟨JsValue.obj [("error", .str "invalid_grant")]⟩ rfl rfl,
   (error_normalization_every_call_site.2.1 ⟨none⟩).2.2 rfl⟩

/-- Claim C9: when the transport error does carry a remote response but the
response body is falsy (empty string, null, 0, false, undefined), every
method rejects with the raw transport error object, not with that body. -/
theorem falsy_remote_body_rejects_raw (err : AxiosError) (r : AxiosResponse)
    (hr : err.response = some r) (ht : jsTruthy r.data = false) :
    Olx.getToken_run (.error err) = .error (.raw err) ∧
    Olx.getAnuncios_run (.error err) = .error (.raw err) ∧
    Olx.getBasicUserInfo_run (.error err) = .error (.raw err) ∧
    Olx.putAnuncios_run (.error err) = .error (.raw err) ∧
    Olx.deleteAnuncios_run (.error err) = .error (.raw err) ∧
    Olx.getStatusAnuncio_run (.error err) = .error (.raw err) ∧
    Olx.getModelosCarros_run (.error err) = .error (.raw err) ∧
    Olx.getModelosMotos_run (.error err) = .error (.raw err) ∧
    Olx.getCilindradas_run (.error err) = .error (.raw err) :=
  ⟨(run_error_cases Olx.getToken_run (fun _ => rfl) err).2.1 r hr ht,
   (run_error_cases Olx.getAnuncios_run (fun _ => rfl) err).2.1 r hr ht,
   (run_error_cases Olx.getBasicUserInfo_run (fun _ => rfl) err).2.1 r hr ht,
   (run_error_cases Olx.putAnuncios_run (fun _ => rfl) err).2.1 r hr ht,
   (run_error_cases Olx.deleteAnuncios_run (fun _ => rfl) err).2.1 r hr ht,
   (run_error_cases Olx.getStatusAnuncio_run (fun _ => rfl) err).2.1 r hr ht,
   (run_error_cases Olx.getModelosCarros_run (fun _ => rfl) err).2.1 r hr ht,
   (run_error_cases Olx.getModelosMotos_run (fun _ => rfl) err).2.1 r hr ht,
   (run_error_cases Olx.getCilindradas_run (fun _ => rfl) err).2.1 r hr ht⟩

/-- Claim C9 witness: an error carrying a response whose body is the empty
string (falsy) makes `getToken` reject with the raw error object. -/
theorem falsy_remote_body_rejects_raw_witness :
    Olx.getToken_run (.error ⟨some ⟨JsValue.str ""⟩⟩) =
      .error (.raw ⟨some ⟨JsValue.str ""⟩⟩) :=
  (falsy_remote_body_rejects_raw ⟨some ⟨JsValue.str ""⟩⟩ ⟨JsValue.str ""⟩ rfl rfl).1

/-- Claim C2: `getToken(code)` builds a form-encoded body with exactly the
fields `code`, `client_id`, `client_secret`, `redirect_uri` and
`grant_type=authorization_code` (credentials taken from the instance), posts
it to `/oauth/token` on the auth issuer, and on success resolves with the
`access_token` field of the JSON response body. -/
theorem getToken_builds_form_post (o : Olx) (code : String) :
    o.getToken_request code =
      { verb := .post, host := .auth, path := "/oauth/token",
        body := .form [("code", code), ("client_id", o.client_id),
          ("client_secret", o.client_secret), ("redirect_uri", o.redirect_uri),
          ("grant_type", "authorization_code")] } ∧
    ∀ d : JsValue, Olx.getToken_run (.ok ⟨d⟩) = .ok (d.getField "access_token") :=
  ⟨rfl, fun _ => rfl⟩

theorem deleteAnuncios_adList_eq_map (ids : List String) :
    Olx.deleteAnuncios_adList ids =
      ids.map (fun id => JsValue.obj [("id", .str id), ("operation", .str "delete")]) := by
  have gen : ∀ (l : List String) (acc : List JsValue),
      l.foldl (fun anuncios id =>
          anuncios ++ [JsValue.obj [("id", .str id), ("operation", .str "delete")]]) acc =
        acc ++ l.map (fun id => JsValue.obj [("id", .str id), ("operation", .str "delete")]) := by
    intro l
    induction l with
    | nil => intro acc; simp
    | cons x xs ih => intro acc; simp [ih]
  simpa [Olx.deleteAnuncios_adList] using gen ids []

/-- Claim C3: `deleteAnuncios(token, ids)` issues exactly one PUT to
`/autoupload/import` whose body is `{access_token: token, ad_list: l}`,
where `l` has the same length and order as `ids` and whose i-th element is
`{id: ids[i], operation: "delete"}`. -/
theorem deleteAnuncios_builds_put (tok : String) (ids : List String) :
    Olx.deleteAnuncios_request tok ids =
      { verb := .put, host := .app, path := "/autoupload/import",
        body := .json (.obj [("access_token", .str tok),
          ("ad_list", .arr (ids.map (fun id =>
            JsValue.obj [("id", .str id), ("operation", .str "delete")])))]) } ∧
    (Olx.deleteAnuncios_adList ids).length = ids.length ∧
    ∀ i : Nat, ∀ h : i < ids.length,
      (Olx.deleteAnuncios_adList ids)[i]? =
        some (JsValue.obj [("id", .str (ids.get ⟨i, h⟩)), ("operation", .str "delete")]) := by
  refine ⟨?_, ?_, ?_⟩
  · simp [Olx.deleteAnuncios_request, deleteAnuncios_adList_eq_map]
  · simp [deleteAnuncios_adList_eq_map]
  · intro i h
    simp [deleteAnuncios_adList_eq_map, List.getElem?_eq_getElem h]

/-- Claim C3 witness: for ids `["id1","id2"]` the built `ad_list` has the
delete record for `"id2"` at position 1, and the request is the expected
single PUT. -/
theorem deleteAnuncios_builds_put_witness :
    (Olx.deleteAnuncios_adList ["id1", "id2"])[1]? =
      some (JsValue.obj [("id", .str "id2"), ("operation", .str "delete")]) :=
  (deleteAnuncios_builds_put "tok" ["id1", "id2"]).2.2 1 (by decide)

/-- Claim C4: for the vehicle-catalog operations, a falsy brand id (absent or
zero) leaves the bare base path and ignores any supplied model id; a truthy
brand id appends `/{brand_id}`, and `/{model_id}` is appended only when a
(truthy) model id is also supplied. -/
theorem vehicle_catalog_path_rule (tok : String) (marca modelo : Option Nat) :
    (numOptTruthy marca = false →
      (Olx.getModelosCarros_request tok marca modelo).path = "/autoupload/car_info" ∧
      (Olx.getModelosMotos_request tok marca modelo).path = "/autoupload/moto_info") ∧
    (∀ m : Nat, marca = some m → numOptTruthy marca = true →
      (modelo = none →
        (Olx.getModelosCarros_request tok marca modelo).path =
          "/autoupload/car_info/" ++ toString m ∧
        (Olx.getModelosMotos_request tok marca modelo).path =
          "/autoupload/moto_info/" ++ toString m) ∧
      (∀ mo : Nat, modelo = some mo → numOptTruthy modelo = true →
        (Olx.getModelosCarros_request tok marca modelo).path =
          "/autoupload/car_info/" ++ toString m ++ "/" ++ toString mo ∧
        (Olx.getModelosMotos_request tok marca modelo).path =
          "/autoupload/moto_info/" ++ toString m ++ "/" ++ toString mo)) := by
  constructor
  · intro hf
    constructor <;>
      simp [Olx.getModelosCarros_request, Olx.getModelosMotos_request, vehicleInfoUri, hf]
  · rintro m rfl ht
    constructor
    · rintro rfl
      have hn : numOptTruthy none = false := rfl
      constructor <;>
        · simp [Olx.getModelosCarros_request, Olx.getModelosMotos_request,
            vehicleInfoUri, ht, hn]
          try rfl
    · rintro mo rfl hmo
      constructor <;>
        · simp [Olx.getModelosCarros_request, Olx.getModelosMotos_request,
            vehicleInfoUri, ht, hmo]
          try rfl

/-- Claim C4 witness: brand 5 and model 12 give `/autoupload/car_info/5/12`;
a missing brand ignores a supplied model and gives `/autoupload/car_info`;
brand 5 alone gives `/autoupload/car_info/5`. -/
theorem vehicle_catalog_path_rule_witness :
    (Olx.getModelosCarros_request "t" (some 5) (some 12)).path = "/autoupload/car_info/5/12" ∧
    (Olx.getModelosCarros_request "t" none (some 12)).path = "/autoupload/car_info" ∧
    (Olx.getModelosCarros_request "t" (some 5) none).path = "/autoupload/car_info/5" := by
  refine ⟨?_, ?_, ?_⟩
  · have h := (((vehicle_catalog_path_rule "t" (some 5) (some 12)).2 5 rfl (by decide)).2
      12 rfl (by decide)).1
    simpa using h
  · have h := ((vehicle_catalog_path_rule "t" none (some 12)).1 rfl).1
    simpa using h
  · have h := (((vehicle_catalog_path_rule "t" (some 5) none).2 5 rfl (by decide)).1 rfl).1
    simpa using h

/-- Claim C10: with a truthy brand id and a falsy supplied model id (in
particular model id 0), the model segment is omitted and the path is exactly
the base path followed by `/{brand_id}`, so a model id of 0 can never be
queried. -/
theorem vehicle_model_zero_omitted (tok : String) (m : Nat) (modelo : Option Nat)
    (hm : m ≠ 0) (hmo : numOptTruthy modelo = false) :
    (Olx.getModelosCarros_request tok (some m) modelo).path =
      "/autoupload/car_info/" ++ toString m ∧
    (Olx.getModelosMotos_request tok (some m) modelo).path =
      "/autoupload/moto_info/" ++ toString m := by
  have hsome : numOptTruthy (some m) = true := by simp [numOptTruthy, hm]
  constructor <;>
    · simp [Olx.getModelosCarros_request, Olx.getModelosMotos_request,
        vehicleInfoUri, hsome, hmo]
      try rfl

/-- Claim C10 witness: brand 5 with model 0 hits `/autoupload/car_info/5`. -/
theorem vehicle_model_zero_omitted_witness :
    (Olx.getModelosCarros_request "t" (some 5) (some 0)).path = "/autoupload/car_info/5" := by
  have h := (vehicle_model_zero_omitted "t" 5 (some 0) (by decide) rfl).1
  simpa using h

/-- Claim C7: `getAuthUrl` is a deterministic function of the client's three
stored credential fields and its two arguments: any client holding equal
credentials yields the identical string for identical arguments (and in this
pure embedding the function issues no request and mutates nothing). -/
theorem getAuthUrl_deterministic (o o₂ : Olx) (a : Bool) (st : Option String)
    (h1 : o₂.client_id = o.client_id) (h2 : o₂.client_secret = o.client_secret)
    (h3 : o₂.redirect_uri = o.redirect_uri) :
    o₂.getAuthUrl a st = o.getAuthUrl a st := by
  obtain ⟨c1, c2, c3⟩ := o
  obtain ⟨d1, d2, d3⟩ := o₂
  simp only [Olx.client_id, Olx.client_secret, Olx.redirect_uri] at h1 h2 h3
  subst h1 h2 h3
  rfl

/-- Claim C7 witness: two calls with identical credentials and arguments
produce the identical string. -/
theorem getAuthUrl_deterministic_witness :
    Olx.getAuthUrl ⟨"cid", "csec", "ruri"⟩ true none =
      Olx.getAuthUrl ⟨"cid", "csec", "ruri"⟩ true none :=
  getAuthUrl_deterministic ⟨"cid", "csec", "ruri"⟩ ⟨"cid", "csec", "ruri"⟩ true none rfl rfl rfl

/-- Claim C8: the constructor stores the three credential strings verbatim,
with no validation; in this embedding `Olx` is an immutable record and no
method produces a modified client, so the fields stay equal to the
constructor arguments for the object's lifetime. -/
theorem olx_constructor_stores_verbatim (cid csec ruri : String) :
    (Olx.mk cid csec ruri).client_id = cid ∧
    (Olx.mk cid csec ruri).client_secret = csec ∧
    (Olx.mk cid csec ruri).redirect_uri = ruri :=
  ⟨rfl, rfl, rfl⟩

/-- Claim C6 (amended) witness: a concrete nonempty state `"xyz"` is appended
verbatim after the scope parameter. -/
theorem getAuthUrl_state_appended_witness :
    Olx.getAuthUrl ⟨"cid", "csec", "ruri"⟩ false (some "xyz") =
      Olx.getAuthUrl ⟨"cid", "csec", "ruri"⟩ false none ++ "&state=" ++ "xyz" :=
  ((getAuthUrl_state_appended ⟨"cid", "csec", "ruri"⟩ false).1 "xyz" (by decide)).1
